import Mathlib

/-!
Verification of the command layer of at-cryptoauth-rs (`src/command.rs`).

Bytes are modelled as `Nat` (values 0..255 in practice; all arithmetic that
Rust truncates to a machine width carries an explicit `% 256` / `% 65536`).
Fallible Rust functions return `Except ErrorKind _`; response parsers, whose
body can additionally panic inside `copy_from_slice` or slice indexing,
return `RResult _` with an explicit `crash` outcome.

The repository modules `error.rs`, `memory.rs` and `packet.rs` are not among
the available sources; the definitions below that stand for them are marked
`Modelled from the spec:` and follow the specification's words. Everything
else is translated from `src/command.rs`.
-/

namespace AtCryptoAuth

/-- Modelled from the spec: the closed error taxonomy of `error.rs` (file not in
the available sources) — `BadParam` for structurally invalid arguments and
`InvalidSize` for a payload or response buffer whose length does not match
what the protocol requires. -/
inductive ErrorKind where
  | BadParam
  | InvalidSize
deriving DecidableEq

/-- Outcome of a Rust function that can return a value, return an error, or
panic at runtime (`crash`). -/
inductive RResult (α : Type) where
  | ok : α → RResult α
  | err : ErrorKind → RResult α
  | crash : RResult α
deriving DecidableEq

/-- Modelled from the spec: `memory.rs`'s `Size` enumeration of fixed payload
lengths. The mode encoding "selects 4-byte vs 32-byte transfer granularity"
and `Serial` is rebuilt from "a 32-byte response buffer" whose length is
checked against `Size::Block.len()`, so `Word` is 4 bytes and `Block` 32. -/
inductive Size where
  | Word
  | Block
deriving DecidableEq

/-- Byte length of a `Size` variant (`Size::len`). -/
def Size.len : Size → Nat
  | Size.Word => 0x04
  | Size.Block => 0x20

/-- Modelled from the spec: `memory.rs`'s `Zone` enumeration of memory
regions (`Config`, `Data`, `Otp`). -/
inductive Zone where
  | Config
  | Data
  | Otp
deriving DecidableEq

/-- Modelled from the spec: `memory.rs`'s `Slot` — "an integer identifier
(device-defined range, e.g. 0–15) naming a key/data slot" which "carries a
derived capability predicate (`is_private_key`)". The predicate's extension
is device-configuration data the spec does not enumerate, so it is carried
as a field of the slot value. -/
structure Slot where
  id : Fin 16
  private_key : Bool
deriving DecidableEq

/-- The capability predicate gating AES operations (`Slot::is_private_key`). -/
def Slot.is_private_key (s : Slot) : Bool := s.private_key

/-- Modelled from the spec: the number of legal blocks of each zone, used by
the zone addressing rules ("fails with a parameter error if block/offset are
out of the zone's legal range"). -/
def Zone.blockLimit : Zone → Nat
  | Zone.Config => 4
  | Zone.Otp => 2
  | Zone.Data => 16

/-- Modelled from the spec: `memory.rs`'s `zone.get_addr(block, offset)` —
"computes a zone-relative address; fails with a parameter error if
block/offset are out of the zone's legal range". The word offset occupies
the low three bits and the block index the bits above them. -/
def Zone.get_addr (z : Zone) (block offset : Nat) : Except ErrorKind Nat :=
  if block < z.blockLimit ∧ offset < 8 then
    Except.ok ((block <<< 3) ||| (offset &&& 0x07))
  else
    Except.error ErrorKind.BadParam

/-- Modelled from the spec: `memory.rs`'s `zone.get_slot_addr(slot, block)` —
"a `Data`-zone specialization computing the address of a specific key slot's
block"; the slot number occupies bits 3–6 and the block index the high byte. -/
def Zone.get_slot_addr (_z : Zone) (slot : Slot) (block : Nat) : Except ErrorKind Nat :=
  if block < 4 then
    Except.ok ((slot.id.val <<< 3) ||| (block <<< 8))
  else
    Except.error ErrorKind.BadParam

/-- Modelled from the spec: `memory.rs`'s `zone.encode(size)` — "returns the
mode byte: low bits select the zone, a high bit selects 4-byte vs 32-byte
transfer granularity". -/
def Zone.encode (z : Zone) (size : Size) : Nat :=
  (match z with
   | Zone.Config => 0x00
   | Zone.Otp => 0x01
   | Zone.Data => 0x02) |||
  (match size with
   | Size.Word => 0x00
   | Size.Block => 0x80)

/-- One-byte operation codes (`OpCode` in `src/command.rs`). -/
inductive OpCode where
  | CheckMac
  | DeriveKey
  | Info
  | GenDig
  | GenKey
  | HMac
  | Lock
  | Mac
  | Nonce
  | Pause
  | PrivWrite
  | Random
  | Read
  | Sign
  | UpdateExtra
  | Verify
  | Write
  | Ecdh
  | Counter
  | Sha
  | Aes
  | Kdf
  | SecureBoot
  | SelfTest
deriving DecidableEq

/-- Discriminant byte of each opcode, as declared in `src/command.rs`. -/
def OpCode.toByte : OpCode → Nat
  | OpCode.CheckMac => 0x28
  | OpCode.DeriveKey => 0x1C
  | OpCode.Info => 0x30
  | OpCode.GenDig => 0x15
  | OpCode.GenKey => 0x40
  | OpCode.HMac => 0x11
  | OpCode.Lock => 0x17
  | OpCode.Mac => 0x08
  | OpCode.Nonce => 0x16
  | OpCode.Pause => 0x01
  | OpCode.PrivWrite => 0x46
  | OpCode.Random => 0x1B
  | OpCode.Read => 0x02
  | OpCode.Sign => 0x41
  | OpCode.UpdateExtra => 0x20
  | OpCode.Verify => 0x45
  | OpCode.Write => 0x12
  | OpCode.Ecdh => 0x43
  | OpCode.Counter => 0x24
  | OpCode.Sha => 0x47
  | OpCode.Aes => 0x51
  | OpCode.Kdf => 0x56
  | OpCode.SecureBoot => 0x80
  | OpCode.SelfTest => 0x77

/-- Modelled from the spec: `packet.rs`'s builder state and finished `Packet` —
the opcode byte, the one-byte mode (param1), the 16-bit second parameter,
the payload bytes written into the scratch buffer and the declared payload
length. -/
structure Packet where
  opByte : Nat
  modeByte : Nat
  param2Val : Nat
  pdu : List Nat
  pduLen : Nat
deriving DecidableEq

/-- Modelled from the spec: `PacketBuilder::new` over a zeroed scratch
buffer — all fields start at zero with an empty payload. -/
def PacketBuilder.new : Packet := Packet.mk 0 0 0 [] 0

/-- Builder setter `opcode`. -/
def Packet.opcode (p : Packet) (op : OpCode) : Packet :=
  Packet.mk op.toByte p.modeByte p.param2Val p.pdu p.pduLen

/-- Builder setter `mode`. -/
def Packet.mode (p : Packet) (m : Nat) : Packet :=
  Packet.mk p.opByte m p.param2Val p.pdu p.pduLen

/-- Builder setter `param2`. -/
def Packet.param2 (p : Packet) (v : Nat) : Packet :=
  Packet.mk p.opByte p.modeByte v p.pdu p.pduLen

/-- Builder setter `pdu_data`: writes the payload and records its length. -/
def Packet.pdu_data (p : Packet) (data : List Nat) : Packet :=
  Packet.mk p.opByte p.modeByte p.param2Val data data.length

/-- Builder setter `pdu_length`: overrides the declared payload length. -/
def Packet.pdu_length (p : Packet) (n : Nat) : Packet :=
  Packet.mk p.opByte p.modeByte p.param2Val p.pdu n

/-- Terminal `build` step: the accumulated state is the finished packet
(length and checksum are rendered by `Packet.frame`). -/
def Packet.build (p : Packet) : Packet := p

/-- Modelled from the spec: the finished frame bytes on a zeroed scratch
buffer, at the positions pinned by the source's conformance test — byte 0 is
left to the transport, byte 1 holds the count (count byte + opcode + mode +
two param2 bytes + payload + two checksum bytes = 7 + payload length),
bytes 2..6 hold opcode, mode and little-endian param2, then the declared
payload region (unwritten bytes stay zero), then the 16-bit checksum of the
counted bytes produced by the injected pure `crc16` function. -/
def Packet.frame (p : Packet) (crc16 : List Nat → Nat) : List Nat :=
  let payload := p.pdu.take p.pduLen ++ List.replicate (p.pduLen - p.pdu.length) 0
  let core := [7 + p.pduLen, p.opByte, p.modeByte,
    p.param2Val % 256, (p.param2Val / 256) % 256] ++ payload
  0 :: (core ++ [crc16 core % 256, (crc16 core / 256) % 256])

/-- Truth of `Except.ok` (used to state that a builder produced a packet). -/
def okE (r : Except ErrorKind Packet) : Bool :=
  match r with
  | Except.ok _ => true
  | Except.error _ => false

/-- Models Rust slice indexing `buffer[a..b]`: the subslice when the range is
in bounds, `none` (a panic) otherwise. -/
def sliceRange (l : List Nat) (a b : Nat) : Option (List Nat) :=
  if a ≤ b ∧ b ≤ l.length then some ((l.drop a).take (b - a)) else none

/-- Models `<[u8]>::copy_from_slice`: overwrites the destination with the
source when the lengths match, otherwise the call panics (`none`). -/
def copy_from_slice (dst src : List Nat) : Option (List Nat) :=
  if dst.length = src.length then some src else none

/-- `Word::try_from` (`src/command.rs` lines 20–31): reject a buffer whose
length is not `Size::Word.len()`, else copy it into the 4-byte default. -/
def Word.try_from (buffer : List Nat) : RResult (List Nat) :=
  if buffer.length ≠ Size.Word.len then RResult.err ErrorKind.BadParam
  else
    match copy_from_slice (List.replicate 0x04 0) buffer with
    | some v => RResult.ok v
    | none => RResult.crash

/-- `Block::try_from` (`src/command.rs` lines 52–63): reject a buffer whose
length is not `Size::Block.len()`, else `copy_from_slice` it into the
16-byte (`[u8; 0x10]`) default value. -/
def Block.try_from (buffer : List Nat) : RResult (List Nat) :=
  if buffer.length ≠ Size.Block.len then RResult.err ErrorKind.BadParam
  else
    match copy_from_slice (List.replicate 0x10 0) buffer with
    | some v => RResult.ok v
    | none => RResult.crash

/-- `Serial::try_from` (`src/command.rs` lines 85–96): reject a buffer whose
length is not `Size::Block.len()`, else copy `buffer[0..4]` into
`value[0..4]` and `buffer[8..13]` into `value[4..9]`. -/
def Serial.try_from (buffer : List Nat) : RResult (List Nat) :=
  if buffer.length ≠ Size.Block.len then RResult.err ErrorKind.BadParam
  else
    let value := List.replicate 9 0
    match sliceRange buffer 0 4, sliceRange buffer 8 13 with
    | some s1, some s2 =>
      match copy_from_slice (value.take 4) s1,
            copy_from_slice ((value.drop 4).take 5) s2 with
      | some v1, some v2 => RResult.ok (v1 ++ v2)
      | _, _ => RResult.crash
    | _, _ => RResult.crash

/-- `Digest::try_from` (`src/command.rs` lines 136–146): reject a buffer whose
length is not 32, else copy it into the 32-byte value. -/
def Digest.try_from (buffer : List Nat) : RResult (List Nat) :=
  if buffer.length ≠ 32 then RResult.err ErrorKind.BadParam
  else
    match copy_from_slice (List.replicate 32 0) buffer with
    | some v => RResult.ok v
    | none => RResult.crash

/-- `Lock::zone` (`src/command.rs` lines 324–334). -/
def Lock.zone (z : Zone) : Except ErrorKind Packet :=
  match z with
  | Zone.Config =>
    Except.ok ((((PacketBuilder.new).opcode OpCode.Lock).mode 0x80).build)
  | Zone.Data =>
    Except.ok ((((PacketBuilder.new).opcode OpCode.Lock).mode (0x01 ||| 0x80)).build)
  | Zone.Otp => Except.error ErrorKind.BadParam

/-- `Lock::slot` (`src/command.rs` lines 336–340): mode is
`(key_id as u8) << 2 | 0x02 | 0x80`, computed in `u8` arithmetic. -/
def Lock.slot (key_id : Slot) : Except ErrorKind Packet :=
  Except.ok ((((PacketBuilder.new).opcode OpCode.Lock).mode
    (((key_id.id.val <<< 2) % 256) ||| 0x02 ||| 0x80)).build)

/-- `Sha::start` (`src/command.rs` lines 401–408): opcode `Sha`, mode
`MODE_SHA256_START = 0x00`. -/
def Sha.start : Except ErrorKind Packet :=
  Except.ok ((((PacketBuilder.new).opcode OpCode.Sha).mode 0x00).build)

/-- `Sha::update` (`src/command.rs` lines 410–423): reject a payload of 64
bytes or more with `BadParam`, else opcode `Sha`, mode
`MODE_SHA256_UPDATE = 0x01` with the payload as pdu data. -/
def Sha.update (data : List Nat) : Except ErrorKind Packet :=
  if data.length ≥ 64 then Except.error ErrorKind.BadParam
  else
    Except.ok (((((PacketBuilder.new).opcode OpCode.Sha).mode 0x01).pdu_data data).build)

/-- `Sha::end` (`src/command.rs` lines 426–433). -/
def Sha.finish : Except ErrorKind Packet :=
  Except.ok ((((PacketBuilder.new).opcode OpCode.Sha).mode 0x02).build)

/-- `Aes::encrypt` (`src/command.rs` lines 448–468): reject a slot that is not
a private key with `BadParam`, then a plaintext longer than 16 bytes with
`InvalidSize`; else build with opcode `Aes`, mode `MODE_ENCRYPT = 0x00`,
param2 the slot id, the plaintext as pdu data and a declared pdu length
of 16. -/
def Aes.encrypt (slot : Slot) (plaintext : List Nat) : Except ErrorKind Packet :=
  if slot.is_private_key = false then Except.error ErrorKind.BadParam
  else if plaintext.length > 16 then Except.error ErrorKind.InvalidSize
  else
    Except.ok (((((((PacketBuilder.new).opcode OpCode.Aes).mode 0x00).param2
      slot.id.val).pdu_data plaintext).pdu_length 16).build)

/-- `Aes::decrypt` (`src/command.rs` lines 471–491): reject a slot that is not
a private key with `BadParam`, then a ciphertext whose length is not 16
with `InvalidSize`; else build with opcode `Aes` and mode
`MODE_DECRYPT = 0x01`. -/
def Aes.decrypt (slot : Slot) (ciphertext : List Nat) : Except ErrorKind Packet :=
  if slot.is_private_key = false then Except.error ErrorKind.BadParam
  else if ciphertext.length ≠ 16 then Except.error ErrorKind.InvalidSize
  else
    Except.ok (((((((PacketBuilder.new).opcode OpCode.Aes).mode 0x01).param2
      slot.id.val).pdu_data ciphertext).pdu_length 16).build)

/-- `Read::slot` (`src/command.rs` lines 519–524). -/
def Read.slot (slot : Slot) (block : Nat) : Except ErrorKind Packet :=
  match Zone.Data.get_slot_addr slot block with
  | Except.error e => Except.error e
  | Except.ok addr =>
    Except.ok (((((PacketBuilder.new).opcode OpCode.Read).mode
      (Zone.Data.encode Size.Block)).param2 addr).build)

/-- `Read::read` (`src/command.rs` lines 526–537). -/
def Read.read (zone : Zone) (size : Size) (block offset : Nat) : Except ErrorKind Packet :=
  match zone.get_addr block offset with
  | Except.error e => Except.error e
  | Except.ok addr =>
    Except.ok (((((PacketBuilder.new).opcode OpCode.Read).mode
      (zone.encode size)).param2 addr).build)

/-- `Write::slot` (`src/command.rs` lines 559–570); `data` is the byte view of
the `Block` argument. -/
def Write.slot (slot : Slot) (block : Nat) (data : List Nat) : Except ErrorKind Packet :=
  match Zone.Data.get_slot_addr slot block with
  | Except.error e => Except.error e
  | Except.ok addr =>
    Except.ok ((((((PacketBuilder.new).opcode OpCode.Write).mode
      (Zone.Data.encode Size.Block)).param2 addr).pdu_data data).build)

/-- `Write::write` (`src/command.rs` lines 572–594): first reject a payload
whose length differs from `size.len()` with `BadParam`, then compute the
address and build the frame. -/
def Write.write (zone : Zone) (size : Size) (block offset : Nat)
    (data : List Nat) : Except ErrorKind Packet :=
  if size.len ≠ data.length then Except.error ErrorKind.BadParam
  else
    match zone.get_addr block offset with
    | Except.error e => Except.error e
    | Except.ok addr =>
      Except.ok ((((((PacketBuilder.new).opcode OpCode.Write).mode
        (zone.encode size)).param2 addr).pdu_data data).build)

/-- View of a built packet used to compare Read/Write encodings: the mode
byte and the param2 address. -/
def modeAddrView (p : Packet) : Nat × Nat := (p.modeByte, p.param2Val)

/-- Decidable equality of fallible results, used to evaluate the embedded
functions at concrete inputs. -/
instance {ε α : Type} [DecidableEq ε] [DecidableEq α] : DecidableEq (Except ε α) :=
  fun a b =>
    match a, b with
    | Except.ok x, Except.ok y => decidable_of_iff (x = y) (by simp)
    | Except.error x, Except.error y => decidable_of_iff (x = y) (by simp)
    | Except.ok _, Except.error _ => Decidable.isFalse (by simp)
    | Except.error _, Except.ok _ => Decidable.isFalse (by simp)

end AtCryptoAuth

namespace AtCryptoAuth

/-- C1: the claim says every correctly-sized buffer converts into a `Block`
and round-trips, and that no conversion ever panics. The code violates it:
`Block::try_from` validates the buffer length against `Size::Block.len()`
(32) and then calls `copy_from_slice` into the 16-byte `[u8; 0x10]` value,
which panics on the length mismatch; a 16-byte buffer (the value's own
size) is rejected with `BadParam`, so no input length succeeds. -/
theorem block_try_from_crashes_at_declared_size :
    Block.try_from (List.replicate 32 0) = RResult.crash
    ∧ Block.try_from (List.replicate 16 0) = RResult.err ErrorKind.BadParam := by
  constructor <;> rfl

/-- C2 counterexample: the claim says a wrongly-sized buffer fails with the
`InvalidSize` kind; `Word::try_from` on the empty buffer fails with
`BadParam` instead. -/
theorem word_try_from_badparam_not_invalidsize :
    Word.try_from [] = RResult.err ErrorKind.BadParam
    ∧ Word.try_from [] ≠ RResult.err ErrorKind.InvalidSize := by
  constructor <;> decide

/-- C2 (amended): every response parser, given a byte slice whose length does
not match the size its guard expects (4 for `Word`; 32 for `Block`,
`Serial` and `Digest`), fails with the `BadParam` error kind. -/
theorem parsers_reject_wrong_length_with_badparam (buffer : List Nat) :
    (buffer.length ≠ Size.Word.len → Word.try_from buffer = RResult.err ErrorKind.BadParam)
    ∧ (buffer.length ≠ Size.Block.len → Block.try_from buffer = RResult.err ErrorKind.BadParam)
    ∧ (buffer.length ≠ Size.Block.len → Serial.try_from buffer = RResult.err ErrorKind.BadParam)
    ∧ (buffer.length ≠ 32 → Digest.try_from buffer = RResult.err ErrorKind.BadParam) := by
  refine ⟨fun h => ?_, fun h => ?_, fun h => ?_, fun h => ?_⟩ <;>
    simp [Word.try_from, Block.try_from, Serial.try_from, Digest.try_from, h]

/-- C2 witness: the empty buffer is rejected by all four parsers with
`BadParam`. -/
theorem parsers_reject_wrong_length_with_badparam_witness :
    (List.length ([] : List Nat) ≠ Size.Word.len
      ∧ Word.try_from [] = RResult.err ErrorKind.BadParam)
    ∧ (List.length ([] : List Nat) ≠ Size.Block.len
      ∧ Block.try_from [] = RResult.err ErrorKind.BadParam)
    ∧ (Serial.try_from [] = RResult.err ErrorKind.BadParam)
    ∧ (List.length ([] : List Nat) ≠ 32
      ∧ Digest.try_from [] = RResult.err ErrorKind.BadParam) :=
  ⟨⟨by decide, (parsers_reject_wrong_length_with_badparam []).1 (by decide)⟩,
   ⟨by decide, (parsers_reject_wrong_length_with_badparam []).2.1 (by decide)⟩,
   (parsers_reject_wrong_length_with_badparam []).2.2.1 (by decide),
   ⟨by decide, (parsers_reject_wrong_length_with_badparam []).2.2.2 (by decide)⟩⟩

/-- C3: `Serial::try_from` on any 32-byte buffer succeeds and yields the
concatenation of input bytes [0..4) and [8..13), the intervening bytes
discarded. -/
theorem serial_reassembles_noncontiguous_ranges (buffer : List Nat)
    (h : buffer.length = 32) :
    Serial.try_from buffer = RResult.ok (buffer.take 4 ++ (buffer.drop 8).take 5) := by
  unfold Serial.try_from sliceRange copy_from_slice
  simp [Size.len, h]

/-- C3 witness: the spec's concrete scenario — bytes 0–3 are `[1,2,3,4]`,
bytes 8–12 are `[5,6,7,8,9]`, and the parsed serial is
`[1,2,3,4,5,6,7,8,9]`. -/
theorem serial_reassembles_noncontiguous_ranges_witness :
    (([1, 2, 3, 4, 0, 0, 0, 0, 5, 6, 7, 8, 9] ++ List.replicate 19 0 : List Nat).length = 32)
    ∧ Serial.try_from ([1, 2, 3, 4, 0, 0, 0, 0, 5, 6, 7, 8, 9] ++ List.replicate 19 0)
      = RResult.ok [1, 2, 3, 4, 5, 6, 7, 8, 9] := by
  refine ⟨by decide, ?_⟩
  rw [serial_reassembles_noncontiguous_ranges _ (by decide)]
  decide

/-- C4: `Aes::encrypt` produces a packet exactly when the slot is a private
key and the payload is at most 16 bytes; `Aes::decrypt` produces a packet
exactly when the slot is a private key and the payload is exactly 16
bytes; in every other case each returns an error. -/
theorem aes_encrypt_decrypt_validation (s : Slot) (d : List Nat) :
    (okE (Aes.encrypt s d) = true ↔ (s.is_private_key = true ∧ d.length ≤ 16))
    ∧ (okE (Aes.decrypt s d) = true ↔ (s.is_private_key = true ∧ d.length = 16)) := by
  unfold Aes.encrypt Aes.decrypt okE Slot.is_private_key
  split_ifs with h1 h2 h3 h4 <;> simp_all

/-- C5: `Sha::update` rejects every payload of 64 bytes or more with
`BadParam`, and for every payload of fewer than 64 bytes (the empty one
included) produces a packet with the SHA opcode byte 0x47 and the update
mode byte 0x01. -/
theorem sha_update_length_bounds (d : List Nat) :
    (64 ≤ d.length → Sha.update d = Except.error ErrorKind.BadParam)
    ∧ (d.length < 64 →
        Except.map (fun p => (p.opByte, p.modeByte)) (Sha.update d)
          = Except.ok (0x47, 0x01)) := by
  constructor
  · intro h
    simp [Sha.update, h]
  · intro h
    simp [Sha.update, Nat.not_le_of_lt h, Packet.pdu_data, Packet.mode, Packet.opcode,
      Packet.build, PacketBuilder.new, OpCode.toByte, Except.map]

/-- C5 witness: a 64-byte payload is rejected, and the empty payload yields a
packet with opcode 0x47 and mode 0x01. -/
theorem sha_update_length_bounds_witness :
    (64 ≤ (List.replicate 64 0 : List Nat).length
      ∧ Sha.update (List.replicate 64 0) = Except.error ErrorKind.BadParam)
    ∧ ((List.length ([] : List Nat)) < 64
      ∧ Except.map (fun p => (p.opByte, p.modeByte)) (Sha.update [])
          = Except.ok (0x47, 0x01)) :=
  ⟨⟨by decide, (sha_update_length_bounds (List.replicate 64 0)).1 (by decide)⟩,
   ⟨by decide, (sha_update_length_bounds []).2 (by decide)⟩⟩

/-- C6: `Lock::zone` rejects `Otp` with `BadParam` and produces frames with
mode byte 0x80 for `Config` and 0x81 for `Data`; `Lock::slot` succeeds for
every slot with mode byte `slot << 2 | 0x02 | 0x80`. -/
theorem lock_mode_encoding (s : Slot) :
    Lock.zone Zone.Otp = Except.error ErrorKind.BadParam
    ∧ Except.map Packet.modeByte (Lock.zone Zone.Config) = Except.ok 0x80
    ∧ Except.map Packet.modeByte (Lock.zone Zone.Data) = Except.ok 0x81
    ∧ Except.map Packet.modeByte (Lock.slot s)
        = Except.ok ((s.id.val <<< 2) ||| 0x02 ||| 0x80) := by
  refine ⟨rfl, rfl, rfl, ?_⟩
  have hlt : s.id.val <<< 2 < 256 := by
    have h16 := s.id.isLt
    simp only [Nat.shiftLeft_eq]
    omega
  simp [Lock.slot, Packet.mode, Packet.opcode, Packet.build, PacketBuilder.new,
    Except.map, Nat.mod_eq_of_lt hlt]

/-- C7: `Read::read` and `Write::write` with the same `(zone, size, block,
offset)` (the write given a payload of the matching length) agree on the
mode byte and the param2 address — both as computed values and in the
failure case; likewise `Read::slot` and `Write::slot` for the same
`(slot, block)`. -/
theorem read_write_addr_mode_symmetry (zone : Zone) (size : Size)
    (block offset : Nat) (data : List Nat) (s : Slot) (blk : Nat)
    (d2 : List Nat) (h : data.length = size.len) :
    Except.map modeAddrView (Read.read zone size block offset)
      = Except.map modeAddrView (Write.write zone size block offset data)
    ∧ Except.map modeAddrView (Read.slot s blk)
      = Except.map modeAddrView (Write.slot s blk d2) := by
  constructor
  · cases hz : zone.get_addr block offset <;>
      simp [Read.read, Write.write, hz, h, modeAddrView, Except.map,
        Packet.param2, Packet.mode, Packet.opcode, Packet.pdu_data, Packet.build,
        PacketBuilder.new]
  · cases hz : Zone.Data.get_slot_addr s blk <;>
      simp [Read.slot, Write.slot, hz, modeAddrView, Except.map,
        Packet.param2, Packet.mode, Packet.opcode, Packet.pdu_data, Packet.build,
        PacketBuilder.new]

/-- C7 witness: concrete instantiation at `(Config, Word, block 2, offset 3)`
with a 4-byte payload and at `(slot 5, block 1)`. -/
theorem read_write_addr_mode_symmetry_witness :
    ((List.replicate 4 0 : List Nat).length = Size.Word.len)
    ∧ Except.map modeAddrView (Read.read Zone.Config Size.Word 2 3)
      = Except.map modeAddrView (Write.write Zone.Config Size.Word 2 3 (List.replicate 4 0))
    ∧ Except.map modeAddrView (Read.slot (Slot.mk 5 true) 1)
      = Except.map modeAddrView (Write.slot (Slot.mk 5 true) 1 (List.replicate 16 0)) :=
  ⟨by decide,
   (read_write_addr_mode_symmetry Zone.Config Size.Word 2 3 (List.replicate 4 0)
      (Slot.mk 5 true) 1 (List.replicate 16 0) (by decide)).1,
   (read_write_addr_mode_symmetry Zone.Config Size.Word 2 3 (List.replicate 4 0)
      (Slot.mk 5 true) 1 (List.replicate 16 0) (by decide)).2⟩

/-- C8: `Write::write` returns `BadParam` whenever the payload length differs
from `size.len()`, before any address computation (so even for an
out-of-range block/offset the answer is this `BadParam`); with matching
lengths it fails with exactly the errors of the addressing model. -/
theorem write_length_check_precedes_addressing (zone : Zone) (size : Size)
    (block offset : Nat) (data : List Nat) (e : ErrorKind) :
    (size.len ≠ data.length →
      Write.write zone size block offset data = Except.error ErrorKind.BadParam)
    ∧ (size.len = data.length →
      (Write.write zone size block offset data = Except.error e
        ↔ zone.get_addr block offset = Except.error e)) := by
  constructor
  · intro h
    simp [Write.write, h]
  · intro h
    cases hz : zone.get_addr block offset <;>
      simp [Write.write, h, hz]

/-- C8 witness: with block 99 out of range, a wrongly-sized payload still
gives `BadParam` from the length check, and a correctly-sized payload
fails exactly as the addressing model does. -/
theorem write_length_check_precedes_addressing_witness :
    (Size.Word.len ≠ (List.length ([] : List Nat))
      ∧ Write.write Zone.Config Size.Word 99 0 [] = Except.error ErrorKind.BadParam)
    ∧ (Size.Word.len = (List.replicate 4 0 : List Nat).length
      ∧ (Write.write Zone.Config Size.Word 99 0 (List.replicate 4 0)
          = Except.error ErrorKind.BadParam
        ↔ Zone.Config.get_addr 99 0 = Except.error ErrorKind.BadParam)) :=
  ⟨⟨by decide,
    (write_length_check_precedes_addressing Zone.Config Size.Word 99 0 []
      ErrorKind.BadParam).1 (by decide)⟩,
   ⟨by decide,
    (write_length_check_precedes_addressing Zone.Config Size.Word 99 0
      (List.replicate 4 0) ErrorKind.BadParam).2 (by decide)⟩⟩

/-- C9: for every checksum function, the SHA-start frame built on a zeroed
scratch buffer has 0x07 at the length position (byte 1), the opcode byte
0x47 at byte 2, the mode byte 0x00 at byte 3 and parameter bytes
`[0x00, 0x00]` at bytes 4 and 5. -/
theorem sha_start_frame_bytes (crc16 : List Nat → Nat) :
    Except.map (fun p => ((p.frame crc16).getD 1 0xff, (p.frame crc16).getD 2 0xff,
        (p.frame crc16).getD 3 0xff, (p.frame crc16).getD 4 0xff,
        (p.frame crc16).getD 5 0xff)) Sha.start
      = Except.ok (0x07, 0x47, 0x00, 0x00, 0x00) := by
  rfl

/-- C10: in both `Aes::encrypt` and `Aes::decrypt` the slot-eligibility check
comes first: a slot that is not a private key yields `BadParam` whatever
the payload, and `InvalidSize` is only ever returned for a private-key
slot. -/
theorem aes_slot_check_precedes_size_check (s : Slot) (d : List Nat) :
    (s.is_private_key = false →
      Aes.encrypt s d = Except.error ErrorKind.BadParam
      ∧ Aes.decrypt s d = Except.error ErrorKind.BadParam)
    ∧ (Aes.encrypt s d = Except.error ErrorKind.InvalidSize → s.is_private_key = true)
    ∧ (Aes.decrypt s d = Except.error ErrorKind.InvalidSize → s.is_private_key = true) := by
  refine ⟨fun hp => ?_, fun he => ?_, fun he => ?_⟩
  · simp [Aes.encrypt, Aes.decrypt, hp]
  · by_contra hcon
    simp only [Bool.not_eq_true] at hcon
    simp [Aes.encrypt, hcon] at he
  · by_contra hcon
    simp only [Bool.not_eq_true] at hcon
    simp [Aes.decrypt, hcon] at he

/-- C10 witness: a non-private slot is rejected with `BadParam` on a 17-byte
payload, and a private slot with a 17-byte payload (which draws
`InvalidSize` from both operations) is indeed a private-key slot. -/
theorem aes_slot_check_precedes_size_check_witness :
    (Aes.encrypt (Slot.mk 0 false) (List.replicate 17 0) = Except.error ErrorKind.BadParam
      ∧ Aes.decrypt (Slot.mk 0 false) (List.replicate 17 0) = Except.error ErrorKind.BadParam)
    ∧ (Slot.mk 1 true).is_private_key = true
    ∧ (Slot.mk 1 true).is_private_key = true :=
  ⟨(aes_slot_check_precedes_size_check (Slot.mk 0 false) (List.replicate 17 0)).1 (by decide),
   (aes_slot_check_precedes_size_check (Slot.mk 1 true) (List.replicate 17 0)).2.1 (by decide),
   (aes_slot_check_precedes_size_check (Slot.mk 1 true) (List.replicate 17 0)).2.2 (by decide)⟩

end AtCryptoAuth
